import Mathlib

/-!
Shallow embedding of `clef_evaluation.py` (CLEF-HIPE-2020 scorer), the
result-aggregation and stratified-reporting pipeline of the HIPE shared task.

Python dynamic values are modelled as follows:
* numeric metric values (ints and floats used only through `round` and
  equality) become `Rat`; the explicit "empty" marker used by the collaborator
  for undefined metrics becomes `PyVal.empty`;
* dictionaries (which preserve insertion order) become association lists
  `List (key × value)`, with `dlookup` (first match) and `dictInsert`
  (replace in place if present, else append) mirroring `d[k]` and `d[k] = v`;
* the noise-level bounds are carried as their rendered decimal strings: the
  script converts them with `float()` and only ever uses them again inside an
  f-string, and on canonical forms such as `"0.0"` that round trip is the
  identity;
* file writes are reified as a list of `FileOut` events; raised exceptions
  become `Except PyError`.
-/

/-- A metric value as found in the collaborator's result bundles: a number, or
the explicit empty marker used when a metric is undefined for a tag/regime. -/
inductive PyVal where
  | num (q : Rat)
  | empty
deriving DecidableEq

/-- A cell of a report row: the `System`/`Evaluation`/`Label` fields hold
strings, the metric fields hold `PyVal`s. -/
inductive Cell where
  | str (s : String)
  | val (v : PyVal)
deriving DecidableEq

/-- Python's `round(x, 3)`: round to 3 decimal places.  (Python uses
round-half-to-even on floats; Mathlib's `round` is round-half-up.  No claim
depends on tie behaviour.) -/
def round3 (q : Rat) : Rat := (round (q * 1000) : Int) / 1000

/-- The body of the rounding loop at the end of `assemble_tsv_output`
(lines 391-397): `round(fig, 3)` succeeds on numbers; on non-numeric values it
raises `TypeError`, which is swallowed, leaving the value unchanged. -/
def roundCell : Cell → Cell
  | .val (.num q) => .val (.num (round3 q))
  | c => c

/-- Lookup in an insertion-ordered dictionary (`d[k]`, as an `Option`). -/
def dlookup [DecidableEq α] (k : α) : List (α × β) → Option β
  | [] => none
  | (k', v) :: rest => if k' = k then some v else dlookup k rest

/-- Python dictionary assignment `d[k] = v`: if the key is present its value is
replaced in place (insertion position kept), otherwise the pair is appended. -/
def dictInsert [DecidableEq α] : List (α × β) → α → β → List (α × β)
  | [], k, v => [(k, v)]
  | (k', v') :: rest, k, v =>
    if k' = k then (k, v) :: rest else (k', v') :: dictInsert rest k v

/-- Python `str.lower()` (character-wise, which is exact for the ASCII names
the script handles). -/
def pyToLower (s : String) : String := (s.toList.map Char.toLower).asString

/-- Split a list of characters at every occurrence of `c` (Python
`str.split(sep)` for a single-character separator). -/
def splitOnChar (c : Char) : List Char → List (List Char)
  | [] => [[]]
  | x :: rest =>
    match splitOnChar c rest with
    | [] => [[]]
    | g :: gs => if x = c then [] :: g :: gs else (x :: g) :: gs

/-- Python `str.split(sep)` for a single-character separator, on strings. -/
def pySplit (sep : Char) (s : String) : List String :=
  (splitOnChar sep s.toList).map List.asString

/-- Replace every (leftmost, non-overlapping) occurrence of `pat` in the
subject, as Python `str.replace` does for a non-empty pattern. -/
def replaceAll (pat rep : List Char) : List Char → List Char
  | [] => []
  | c :: rest =>
    if pat ≠ [] ∧ pat.isPrefixOf (c :: rest) = true then
      rep ++ replaceAll pat rep (rest.drop (pat.length - 1))
    else c :: replaceAll pat rep rest
termination_by s => s.length
decreasing_by
  · simp only [List.length_cons]
    have := List.length_drop (pat.length - 1) rest
    omega
  · simp [List.length_cons]

/-- Python `s.replace(pat, rep)` on strings (non-empty pattern). -/
def pyReplace (s pat rep : String) : String :=
  (replaceAll pat.toList rep.toList s.toList).asString

/-- The last path component, as `pathlib.PurePosixPath(p).name` for the plain
relative paths the script deals with. -/
def pathName (p : String) : String :=
  ((splitOnChar '/' p.toList).getLastD p.toList).asString

/-- `str(pathlib.Path(outdir) / name)`: `Path(".")` has no parts, so joining
onto it yields `name` unchanged. -/
def pathJoin (outdir name : String) : String :=
  if outdir = "." then name else outdir ++ "/" ++ name

/-- `pathlib` `stem`/`suffix` of a file name: the extension starts at the last
dot, provided that dot is neither the first nor the last character. -/
def pathStemSuffix (name : String) : String × String :=
  let cs := name.toList
  match ((List.range cs.length).filter (fun i => cs.getD i ' ' = '.')).getLast? with
  | some i =>
    if 0 < i ∧ i < cs.length - 1 then ((cs.take i).asString, (cs.drop i).asString)
    else (name, "")
  | none => (name, "")

/-- The innermost two levels of a result bundle: regime key → metric key →
value.  Per the collaborator's contract every tag's regime sub-map carries the
full metric set, with undefined entries as the explicit empty marker, so this
level is modelled as a total function. -/
abbrev TagBundle : Type := String → String → PyVal

/-- The per-tag map returned by the collaborator for one column
(`eval_per_tag[col]` in the script): tag name → bundle, insertion-ordered. -/
abbrev TagDict : Type := List (String × TagBundle)

/-- The per-column result structure consumed by `assemble_tsv_output`
(`eval_stats` in the script): column → per-tag map, insertion-ordered. -/
abbrev StatsDict : Type := List (String × TagDict)

/-- A noise stratum: `None`, or the pair of normalized-Levenshtein bounds
(carried as their rendered decimal strings, see the module comment). -/
abbrev NoiseLevel : Type := Option (String × String)

/-- A `datetime` as far as the script observes one: year, month, day. -/
structure Date where
  year : Nat
  month : Nat
  day : Nat
deriving DecidableEq

/-- A time stratum: `None`, or a start/end `datetime` pair. -/
abbrev TimePeriod : Type := Option (Date × Date)

/-- The matching collaborator `evaluator.evaluate` (external, spec section 6):
`evaluate(col, eval_type, merge_lines=True, n_best, noise_level, time_period,
tags)` returns the column-global bundle and the per-tag map.  `merge_lines` is
always `True` at every call site and is omitted.  The key type is a parameter
because the union branch passes a column group instead of a column name. -/
abbrev Collaborator (α : Type) : Type :=
  α → String → Nat → NoiseLevel → TimePeriod → Option (List String) → TagBundle × TagDict

/-- `evaluation_wrapper` (lines 167-187): one collaborator call per column,
then the column-global bundle is injected into the per-tag map under the
artificial tag `"ALL"`; the per-tag structure (`eval_per_tag`) is returned. -/
def evaluation_wrapper [DecidableEq α] (evaluate : α → TagBundle × TagDict)
    (cols : List α) : List (α × TagDict) :=
  cols.foldl
    (fun eval_per_tag col =>
      let res := evaluate col
      dictInsert eval_per_tag col (dictInsert res.2 "ALL" res.1))
    []

/-- `define_noise_label` (lines 307-312). -/
def define_noise_label (noise_level : NoiseLevel) : String :=
  match noise_level with
  | some (noise_lower, noise_upper) => "LED-" ++ noise_lower ++ "-" ++ noise_upper
  | none => "LED-ALL"

/-- `strftime("%Y")`: the year, zero-padded to four digits. -/
def fmtYear (d : Date) : String :=
  let s := Nat.repr d.year
  (List.replicate (4 - s.length) '0').asString ++ s

/-- `define_time_label` (lines 315-327).  Both branches of the source's
day/month test render the dates identically with `strftime("%Y")`, so the
label always shows years only. -/
def define_time_label (time_period : TimePeriod) : String :=
  match time_period with
  | some (date_start, date_end) => "TIME-" ++ fmtYear date_start ++ "-" ++ fmtYear date_end
  | none => "TIME-ALL"

/-- The `f"{suffix + '-' if suffix else ''}"` prefix of the per-stratum
evaluation suffix (lines 239 and 255). -/
def userDash (suffix : String) : String := if suffix ≠ "" then suffix ++ "-" else ""

/-- The per-stratum `eval_suffix` of the NERC branch (lines 238-243). -/
def nercEvalSuffix (suffix : String) (time_period : TimePeriod)
    (noise_level : NoiseLevel) : String :=
  userDash suffix ++ define_time_label time_period ++ "-" ++ define_noise_label noise_level

/-- The per-stratum `eval_suffix` of the NEL branch (lines 254-272): the
cutoff marker `-@<n>` is appended, and in union mode the whole label is
prefixed with `union_lit_meto-` afterwards (line 272). -/
def nelEvalSuffix (suffix : String) (time_period : TimePeriod)
    (noise_level : NoiseLevel) (n : Nat) (union : Bool) : String :=
  let eval_suffix := userDash suffix ++ define_time_label time_period ++ "-"
    ++ define_noise_label noise_level ++ "-@" ++ Nat.repr n
  if union then "union_lit_meto-" ++ eval_suffix else eval_suffix

/-- The `metrics` tuple of `assemble_tsv_output` (line 334). -/
def metrics : List String := ["P", "R", "F1"]

/-- The `figures` tuple (line 335). -/
def figures : List String := ["TP", "FP", "FN"]

/-- The `aggregations` tuple (line 336). -/
def aggregations : List String := ["micro", "macro_doc"]

/-- The fixed header of the tabular report (lines 338-351). -/
def fieldnames : List String :=
  ["System", "Evaluation", "Label", "P", "R", "F1", "F1_std", "P_std", "R_std",
   "TP", "FP", "FN"]

/-- One report row, as the insertion-ordered dictionary the script builds. -/
abbrev Row : Type := List (String × Cell)

/-- The regime renaming of line 364: the display name `"fuzzy"` maps to the
storage key `"ent_type"`; every other regime indexes under its own name. -/
def regimeKey (regime : String) : String :=
  if regime = "fuzzy" then "ent_type" else regime

/-- Python's `pat in s` substring test. -/
def hasSub (pat s : List Char) : Bool := s.tails.any (fun t => pat.isPrefixOf t)

/-- Python's `pat in s` on strings. -/
def hasSubStr (pat s : String) : Bool := hasSub pat.toList s.toList

/-- The `results` dictionary for one (column, aggregation, regime, tag), as
built by lines 373-389, before the rounding loop: `System`/`Evaluation`/
`Label`, always `P`/`R`/`F1` (under the `{metric}_{aggr}` keys of the bundle),
`TP`/`FP`/`FN` only when the aggregation is `"micro"`, and the standard
deviations only when `"macro"` occurs in the aggregation name.  The
`Evaluation` label uses the display regime name; the bundle is indexed with
`regimeKey` of it. -/
def rawRow (submission col aggr regimeDisp suffix : String) (b : TagBundle)
    (tag : String) : Row :=
  let eval_regime := col ++ "-" ++ aggr ++ "-" ++ regimeDisp ++ suffix
  let regime := regimeKey regimeDisp
  [("System", Cell.str submission), ("Evaluation", Cell.str eval_regime),
   ("Label", Cell.str tag)]
  ++ metrics.map (fun metric => (metric, Cell.val (b regime (metric ++ "_" ++ aggr))))
  ++ (if aggr = "micro" then
        figures.map (fun fig => (fig, Cell.val (b regime fig)))
      else [])
  ++ (if hasSubStr "macro" aggr then
        metrics.map (fun metric =>
          (metric ++ "_std", Cell.val (b regime (metric ++ "_" ++ aggr ++ "_std"))))
      else [])

/-- The row after the rounding loop of lines 391-397: every value is rounded
if numeric and left untouched otherwise (the `TypeError` is swallowed). -/
def buildRow (submission col aggr regimeDisp suffix : String) (b : TagBundle)
    (tag : String) : Row :=
  (rawRow submission col aggr regimeDisp suffix b tag).map
    (fun p => (p.1, roundCell p.2))

/-- Code-point lexicographic comparison of character lists: the order Python
uses when comparing strings. -/
def charListLe : List Char → List Char → Bool
  | [], _ => true
  | _ :: _, [] => false
  | a :: as, b :: bs =>
    if a < b then true
    else if b < a then false
    else charListLe as bs

/-- Python `sorted` on a dictionary's keys (code-point lexicographic,
ascending; a structural sort so that concrete runs evaluate). -/
def sortKeys (l : List String) : List String :=
  l.insertionSort (fun a b => charListLe a.toList b.toList = true)

/-- The insertion-ordered key list of a dictionary. -/
def dictKeys (d : List (String × β)) : List String := d.map Prod.fst

/-- `eval_stats[col][tag]`, as the total bundle function. -/
def tagBundle (eval_stats : StatsDict) (col tag : String) : TagBundle :=
  match dlookup tag ((dlookup col eval_stats).getD []) with
  | some b => b
  | none => fun _ _ => PyVal.empty

/-- `assemble_tsv_output` (lines 330-400): columns in sorted order, then the
fixed aggregation tuple, then the requested regimes, then tags in sorted order
(restricted to `"ALL"` when `only_aggregated`); a `"-"` is prepended to a
non-empty stratum suffix (lines 355-356). -/
def assemble_tsv_output (submission : String) (eval_stats : StatsDict)
    (regimes : List String) (only_aggregated : Bool) (suffix : String) :
    List String × List Row :=
  let suffix' := if suffix ≠ "" then "-" ++ suffix else suffix
  (fieldnames,
    (sortKeys (dictKeys eval_stats)).flatMap fun col =>
      aggregations.flatMap fun aggr =>
        regimes.flatMap fun regime =>
          ((sortKeys (dictKeys ((dlookup col eval_stats).getD []))).filter
            (fun tag => !(only_aggregated && tag != "ALL"))).map
            (fun tag =>
              buildRow submission col aggr regime suffix'
                (tagBundle eval_stats col tag) tag))

/-- The exceptions the script can raise, as far as the claims observe them:
`main` catches `AssertionError` around `get_results` and lets everything else
propagate (a propagating exception terminates the interpreter with a non-zero
status). -/
inductive PyError where
  | assertionError (msg : String)
  | typeError (msg : String)
  | nameError (msg : String)
deriving DecidableEq

/-- The message of the filename `AssertionError` (lines 157-160, without the
quote characters around the file name). -/
def enforceMsg (fname : String) : String :=
  "The filename of the system response " ++ fname
    ++ " needs to comply with the shared task requirements. "
    ++ "Rename according to the following scheme: TEAMNAME_TASKBUNDLEID_LANG_RUNNUMBER.tsv"

/-- Digits-to-number accumulator for `pyInt`. -/
def natOfDigits (cs : List Char) : Nat :=
  cs.foldl (fun n c => n * 10 + (c.toNat - '0'.toNat)) 0

/-- Python `int(s)` on the strings this script feeds it (no sign, no
whitespace, no underscores — the inputs come out of `str.split("_")`):
a non-empty digit string, else `ValueError`. -/
def pyInt (cs : List Char) : Option Nat :=
  if cs ≠ [] ∧ cs.all Char.isDigit then some (natOfDigits cs) else none

/-- Python `s.lstrip(chars)`: strips any leading characters drawn from the
given character set — not the literal prefix. -/
def pyLstrip (chars : List Char) (s : List Char) : List Char :=
  s.dropWhile (fun c => chars.contains c)

/-- `enforce_filename` (lines 143-164): the lower-cased stem must split on
`"_"` into exactly four parts (else `ValueError`), the second part with the
characters of `"bundle"` stripped from the left must parse as an int in 1..5,
the extension must be `.tsv` and the language in {de, fr, en}; every failure
is reported as the same `AssertionError`.  Returns `(submission, lang)`. -/
def enforce_filename (fname : String) : Except PyError (String × String) :=
  let name := pathName (pyToLower fname)
  let stemSuffix := pathStemSuffix name
  let submission := stemSuffix.1
  let suffix := stemSuffix.2
  match pySplit '_' submission with
  | [_team, bundleStr, lang, _n_submission] =>
    (match pyInt (pyLstrip "bundle".toList bundleStr.toList) with
     | some bundle =>
       if suffix = ".tsv" ∧ (lang = "de" ∨ lang = "fr" ∨ lang = "en")
           ∧ 1 ≤ bundle ∧ bundle < 6 then
         Except.ok (submission, lang)
       else Except.error (PyError.assertionError (enforceMsg fname))
     | none => Except.error (PyError.assertionError (enforceMsg fname)))
  | _ => Except.error (PyError.assertionError (enforceMsg fname))

/-- The `FINE_COLUMNS` of line 23.  (In the source this and `COARSE_COLUMNS`
are Python sets with unspecified iteration order; `assemble_tsv_output` sorts
columns, so every observable output is independent of this order.) -/
def FINE_COLUMNS : List String :=
  ["NE-FINE-LIT", "NE-FINE-METO", "NE-FINE-COMP", "NE-NESTED"]

/-- The `COARSE_COLUMNS` of line 24. -/
def COARSE_COLUMNS : List String := ["NE-COARSE-LIT", "NE-COARSE-METO"]

/-- The `NEL_COLUMNS` of line 25. -/
def NEL_COLUMNS : List String := ["NEL-LIT", "NEL-METO"]

/-- `itertools.product` of two axes (first axis outermost). -/
def pyProduct (l1 : List α) (l2 : List β) : List (α × β) :=
  l1.flatMap (fun a => l2.map (fun b => (a, b)))

/-- One produced file: its path and its content (tabular or structured). -/
inductive FileContent where
  | tsv (fieldnames : List String) (rows : List Row)
  | json (eval_stats : StatsDict)

/-- A file-write event of `get_results`. -/
structure FileOut where
  path : String
  content : FileContent

/-- The loop body of the NERC branch of `get_results` (lines 229-237): the
per-stratum `eval_stats`, one `evaluation_wrapper` call per stratum. -/
def nercStats (evalF : Collaborator String) (tagset : Option (List String))
    (columns : List String) (nt : NoiseLevel × TimePeriod) : StatsDict :=
  evaluation_wrapper (fun col => evalF col "nerc" 1 nt.1 nt.2 tagset) columns

/-- The rows contributed by one NERC stratum (lines 238-246): both regimes,
all tags, stratum label `nercEvalSuffix`. -/
def nercRows (evalF : Collaborator String) (tagset : Option (List String))
    (columns : List String) (submission suffix : String)
    (nt : NoiseLevel × TimePeriod) : List Row :=
  (assemble_tsv_output submission (nercStats evalF tagset columns nt)
    ["fuzzy", "strict"] false (nercEvalSuffix suffix nt.2 nt.1)).2

/-- The per-stratum `eval_stats` of the non-union NEL branch (lines 275-282). -/
def nelStats (evalF : Collaborator String)
    (nnt : Nat × NoiseLevel × TimePeriod) : StatsDict :=
  evaluation_wrapper (fun col => evalF col "nel" nnt.1 nnt.2.1 nnt.2.2 none) NEL_COLUMNS

/-- The rows contributed by one NEL stratum (lines 284-287): fuzzy regime
only, aggregated (`"ALL"`) rows only, stratum label `nelEvalSuffix`. -/
def nelRows (evalF : Collaborator String) (submission suffix : String)
    (nnt : Nat × NoiseLevel × TimePeriod) : List Row :=
  (assemble_tsv_output submission (nelStats evalF nnt) ["fuzzy"] true
    (nelEvalSuffix suffix nnt.2.2 nnt.2.1 nnt.1 false)).2

/-- `get_results` (lines 190-304).  The `Evaluator` construction of lines
211-223 (file parsing, glueing-pair handling, tagset file reading) belongs to
the external collaborator and is abstracted by `evalF` and by passing the
tagset file's content directly.  The NERC branch loops over noise × time
strata, the NEL branch over n-best × noise × time; `rows` accumulates across
all strata while `eval_stats` is rebound each iteration, and both files are
written only after the loops.  In union mode the script dies with `TypeError:
unhashable type: list` on its first `eval_global[col] = ...` assignment (line
174), `col` being the `NEL_COLUMNS` list; with an empty stratum product the
script would hit a `NameError` on `fieldnames` (after opening the TSV file —
the model drops that empty artifact, `main` never passes empty axes). -/
def get_results (evalF : Collaborator String) (f_pred task : String)
    (skip_check : Bool) (n_best : List Nat) (union : Bool)
    (outdir suffix : String) (tagset : Option (List String))
    (noise_levels : List NoiseLevel) (time_periods : List TimePeriod) :
    Except PyError (List FileOut) :=
  let sub? := if skip_check then Except.ok (f_pred, "LANG") else enforce_filename f_pred
  match sub? with
  | Except.error e => Except.error e
  | Except.ok (submission, _lang) =>
    let branch? : Except PyError (List Row × Option StatsDict) :=
      if task = "nerc_fine" ∨ task = "nerc_coarse" then
        let columns := if task = "nerc_fine" then FINE_COLUMNS else COARSE_COLUMNS
        Except.ok ((pyProduct noise_levels time_periods).foldl
          (fun acc nt =>
            (acc.1 ++ nercRows evalF tagset columns submission suffix nt,
             some (nercStats evalF tagset columns nt)))
          ([], none))
      else if task = "nel" then
        if union then
          if pyProduct n_best (pyProduct noise_levels time_periods) = [] then
            Except.error (PyError.nameError "fieldnames")
          else Except.error (PyError.typeError "unhashable type: list")
        else
          Except.ok ((pyProduct n_best (pyProduct noise_levels time_periods)).foldl
            (fun acc nnt =>
              (acc.1 ++ nelRows evalF submission suffix nnt,
               some (nelStats evalF nnt)))
            ([], none))
      else Except.error (PyError.nameError "fieldnames")
    match branch? with
    | Except.error e => Except.error e
    | Except.ok (_, none) => Except.error (PyError.nameError "fieldnames")
    | Except.ok (rows, some eval_stats) =>
      let suffix' := if suffix ≠ "" then "_" ++ suffix else suffix
      let name := pathName f_pred
      let f_tsv := pathJoin outdir (pyReplace name ".tsv" ("_" ++ task ++ suffix' ++ ".tsv"))
      let f_json := pathJoin outdir (pyReplace name ".tsv" ("_" ++ task ++ suffix' ++ ".json"))
      Except.ok [⟨f_tsv, FileContent.tsv fieldnames rows⟩,
                 ⟨f_json, FileContent.json eval_stats⟩]

/-- The parsed command-line arguments (`parse_args`, lines 28-140).  The
`f_tagset` field carries the tagset file's upper-cased line set directly
(reading the file is I/O performed inside `get_results`, lines 217-221). -/
structure Args where
  f_ref : String
  f_pred : String
  task : String
  glueing_cols : Option String
  n_best : Option String
  union : Bool
  skip_check : Bool
  outdir : String
  suffix : String
  f_tagset : Option (List String)
  noise_level : Option String
  time_period : Option String

/-- Python truthiness of an optional string argument (`None` and `""` are
falsy). -/
def optTruthy : Option String → Bool
  | none => false
  | some s => s != ""

/-- `check_validity_of_arguments` (lines 403-412), as a predicate: `false`
means the function raises and `main` exits with status 1. -/
def check_validity_of_arguments (args : Args) : Bool :=
  !((args.task != "nel" && (args.union || optTruthy args.n_best)) ||
    (args.union && optTruthy args.n_best))

/-- The n-best parsing of `main` (lines 437-440): default `[1]`, otherwise a
comma-separated int list (`ValueError` propagates and kills the run). -/
def parseNBest (o : Option String) : Option (List Nat) :=
  if !optTruthy o then some [1]
  else (pySplit ',' (o.getD "")).mapM (fun s => pyInt s.toList)

/-- The noise-level parsing of `main` (lines 442-447): each comma-separated
token must split on `-` into exactly two bounds (else the unpacking raises),
and the synthetic all-noise stratum `None` is prepended.  The bounds go
through `float()` in Python and are re-rendered by `str()` only inside
`define_noise_label`; the model keeps the original strings, which matches
Python exactly on canonical float literals such as `"0.0"` (non-numeric
tokens, which would raise `ValueError`, are outside the model). -/
def parseNoiseLevels (spec : String) : Option (List NoiseLevel) :=
  ((pySplit ',' spec).mapM (fun level =>
    match pySplit '-' level with
    | [lower, upper] => some (some (lower, upper) : NoiseLevel)
    | _ => none)).map
    (fun parsed => (none : NoiseLevel) :: parsed)

/-- The noise axis of `main`: parse only when the argument is truthy. -/
def mainNoiseLevels (o : Option String) : Option (List NoiseLevel) :=
  match o with
  | some spec => if spec != "" then parseNoiseLevels spec else some [none]
  | none => some [none]

/-- `datetime.strptime(s, "%Y")`: a bare year (up to four digits), with month
and day defaulting to 1. -/
def parseYear (s : String) : Option Date :=
  let cs := s.toList
  if cs ≠ [] ∧ cs.length ≤ 4 ∧ cs.all Char.isDigit then
    some ⟨natOfDigits cs, 1, 1⟩
  else none

/-- `datetime.strptime(s, "%Y/%m/%d")` (calendar-range validation of the
month/day fields is not observed by any claim and is omitted). -/
def parseYMD (s : String) : Option Date :=
  match pySplit '/' s with
  | [y, m, d] =>
    if y.toList ≠ [] ∧ y.toList.all Char.isDigit ∧ m.toList ≠ []
        ∧ m.toList.all Char.isDigit ∧ d.toList ≠ [] ∧ d.toList.all Char.isDigit then
      some ⟨natOfDigits y.toList, natOfDigits m.toList, natOfDigits d.toList⟩
    else none
  | _ => none

/-- The time-period parsing of `main` (lines 452-467): every token is split on
`-` and its first two components taken (an absent second component raises
`IndexError`, uncaught); all pairs are first parsed as bare years, and only if
that fails for some pair the whole list is re-parsed as `%Y/%m/%d`; the
synthetic all-time stratum `None` is prepended. -/
def parseTimePeriods (spec : String) : Option (List TimePeriod) :=
  match (pySplit ',' spec).mapM (fun period =>
      match pySplit '-' period with
      | p0 :: p1 :: _ => some ((p0, p1) : String × String)
      | _ => none) with
  | none => none
  | some (pairs : List (String × String)) =>
    match pairs.mapM (fun (p : String × String) => do
        let a ← parseYear p.1
        let b ← parseYear p.2
        pure ((a, b) : Date × Date)) with
    | some l => some ((none : TimePeriod) :: l.map some)
    | none =>
      (pairs.mapM (fun (p : String × String) => do
        let a ← parseYMD p.1
        let b ← parseYMD p.2
        pure ((a, b) : Date × Date)) : Option (List (Date × Date))).map
        (fun l => (none : TimePeriod) :: l.map some)

/-- The time axis of `main`: parse only when the argument is truthy. -/
def mainTimePeriods (o : Option String) : Option (List TimePeriod) :=
  match o with
  | some spec => if spec != "" then parseTimePeriods spec else some [none]
  | none => some [none]

/-- `main` (lines 415-486), observed through its exit status and the files it
writes.  An invalid flag combination is caught and answered with
`sys.exit(1)`; a parsing failure on `n_best`/noise/time propagates and the
interpreter exits non-zero (modelled as status 1); an `AssertionError` out of
`get_results` is caught, printed, and the process falls through to a normal
exit 0 with no files written; any other exception out of `get_results`
propagates (status 1, no files). -/
def mainModel (evalF : Collaborator String) (args : Args) : Nat × List FileOut :=
  if !check_validity_of_arguments args then (1, [])
  else
    match parseNBest args.n_best, mainNoiseLevels args.noise_level,
        mainTimePeriods args.time_period with
    | some n_best, some noise_levels, some time_periods =>
      (match get_results evalF args.f_pred args.task args.skip_check n_best
          args.union args.outdir args.suffix args.f_tagset noise_levels
          time_periods with
       | Except.ok files => (0, files)
       | Except.error (PyError.assertionError _) => (0, [])
       | Except.error _ => (1, []))
    | _, _, _ => (1, [])

/-- A synthetic collaborator bundle used for concrete runs of the model. -/
def sampleBundle : TagBundle :=
  fun _ metric => if metric = "TP" then PyVal.num 5 else PyVal.num 1

/-- A synthetic collaborator answering every call with two tags (`loc`,
`pers`) plus the column-global `sampleBundle`. -/
def sampleCollab : Collaborator String := fun _ _ _ _ _ _ =>
  (sampleBundle, [("loc", sampleBundle), ("pers", sampleBundle)])

/-- A second synthetic bundle, distinguishable from `sampleBundle`. -/
def otherBundle : TagBundle := fun _ _ => PyVal.empty

/-- Arguments of the scenario run: task `nerc_coarse`, noise spec
`0.0-0.1,0.1-1.0`, no time spec, no user suffix, filename check active. -/
def c8Args : Args :=
  ⟨"gold.tsv", "team_bundle1_de_1.tsv", "nerc_coarse", none, none, false, false,
   ".", "", none, some "0.0-0.1,0.1-1.0", none⟩

/-- The full pipeline run of the scenario. -/
def c8Run : Nat × List FileOut := mainModel sampleCollab c8Args

/-- The rows of the tabular file written by the scenario run. -/
def c8Rows : List Row :=
  match c8Run.2 with
  | ⟨_, FileContent.tsv _ rows⟩ :: _ => rows
  | _ => []

/-- The `Evaluation` column of the scenario run's table. -/
def c8Labels : List Cell := c8Rows.filterMap (dlookup "Evaluation")

/-- Arguments whose prediction filename fails the submission check (the stem
does not split into four `_` parts). -/
def badNameArgs : Args :=
  ⟨"gold.tsv", "bad.tsv", "nerc_coarse", none, none, false, false,
   ".", "", none, none, none⟩

/-- Arguments with an invalid flag combination (`--union` outside NEL). -/
def badConfigArgs : Args :=
  ⟨"gold.tsv", "team_bundle1_de_1.tsv", "nerc_coarse", none, none, true, false,
   ".", "", none, none, none⟩

/-- Arguments whose prediction filename is *not* of the documented form
`TEAM_bundleN_LANG_RUN` (second stem component `dnu3`), yet passes the
implemented check, because `lstrip("bundle")` strips a character set. -/
def dnuArgs : Args :=
  ⟨"gold.tsv", "team_dnu3_de_1.tsv", "nerc_coarse", none, none, false, false,
   ".", "", none, none, none⟩

/-- The pipeline run on `dnuArgs`. -/
def dnuRun : Nat × List FileOut := mainModel sampleCollab dnuArgs

/-- The files written by a concrete single-stratum NERC run (used to witness
theorems that hypothesise a completing run). -/
def sampleFiles : List FileOut :=
  (get_results sampleCollab ("team_bundle1_de_1" ++ ".tsv") "nerc_coarse" true
    [1] false "." "" none [none] [none]).toOption.getD []

/-- A result-bundle map for the order-independence witness. -/
def permDict1 : StatsDict :=
  [("NE-COARSE-METO", [("pers", sampleBundle), ("loc", otherBundle)]),
   ("NE-COARSE-LIT", [])]

/-- The same map as `permDict1` built in the opposite insertion order. -/
def permDict2 : StatsDict :=
  [("NE-COARSE-LIT", []),
   ("NE-COARSE-METO", [("loc", otherBundle), ("pers", sampleBundle)])]

/-- Looking a key up after a dictionary assignment: the assigned key reads the
new value, every other key is untouched. -/
theorem dlookup_dictInsert [DecidableEq α] (d : List (α × β)) (k k' : α) (v : β) :
    dlookup k (dictInsert d k' v) = if k' = k then some v else dlookup k d := by
  induction d with
  | nil => simp [dictInsert, dlookup]
  | cons p rest ih =>
    obtain ⟨k'', v''⟩ := p
    simp only [dictInsert]
    by_cases h : k'' = k'
    · subst h
      simp only [if_pos rfl, dlookup]
      by_cases h2 : k'' = k <;> simp [h2]
    · simp only [if_neg h, dlookup, ih]
      by_cases h2 : k'' = k
      · subst h2
        have hne : ¬ k' = k'' := fun hh => h hh.symm
        simp [hne]
      · simp [h2]

/-- Folding dictionary assignments with key-determined values: a key that was
assigned during the fold reads its (determined) value, any other key falls
through to the initial dictionary. -/
theorem dlookup_foldl_dictInsert [DecidableEq α] (f : α → β) (cols : List α)
    (acc : List (α × β)) (k : α) :
    dlookup k (cols.foldl (fun d c => dictInsert d c (f c)) acc)
      = if k ∈ cols then some (f k) else dlookup k acc := by
  induction cols generalizing acc with
  | nil => simp
  | cons c cs ih =>
    simp only [List.foldl_cons, ih, dlookup_dictInsert, List.mem_cons]
    by_cases h : k ∈ cs
    · simp [h]
    · by_cases h2 : k = c
      · subst h2
        simp [h]
      · have hne : ¬ c = k := fun hh => h2 hh.symm
        simp [h, h2, hne]

/-- Unfolding of the code-point comparison on two cons cells. -/
theorem charListLe_cons_iff {x y : Char} {xs ys : List Char} :
    charListLe (x :: xs) (y :: ys) = true
      ↔ x < y ∨ (x = y ∧ charListLe xs ys = true) := by
  simp only [charListLe]
  rcases lt_trichotomy x y with h | h | h
  · simp [h]
  · subst h
    simp [lt_irrefl]
  · have h1 : ¬ x < y := not_lt_of_gt h
    have h2 : x ≠ y := ne_of_gt h
    simp [h1, h, h2]

/-- Totality of the code-point order. -/
theorem charListLe_total : ∀ a b : List Char,
    charListLe a b = true ∨ charListLe b a = true := by
  intro a
  induction a with
  | nil => intro b; left; rfl
  | cons x xs ih =>
    intro b
    cases b with
    | nil => right; rfl
    | cons y ys =>
      rw [charListLe_cons_iff, charListLe_cons_iff]
      rcases lt_trichotomy x y with h | h | h
      · exact Or.inl (Or.inl h)
      · subst h
        rcases ih ys with h2 | h2
        · exact Or.inl (Or.inr ⟨rfl, h2⟩)
        · exact Or.inr (Or.inr ⟨rfl, h2⟩)
      · exact Or.inr (Or.inl h)

/-- Transitivity of the code-point order. -/
theorem charListLe_trans : ∀ a b c : List Char,
    charListLe a b = true → charListLe b c = true → charListLe a c = true := by
  intro a
  induction a with
  | nil => intro b c _ _; rfl
  | cons x xs ih =>
    intro b c hab hbc
    cases b with
    | nil => simp [charListLe] at hab
    | cons y ys =>
      cases c with
      | nil => simp [charListLe] at hbc
      | cons z zs =>
        rw [charListLe_cons_iff] at hab hbc ⊢
        rcases hab with h1 | ⟨h1, t1⟩
        · rcases hbc with h2 | ⟨h2, t2⟩
          · exact Or.inl (h1.trans h2)
          · exact Or.inl (h2 ▸ h1)
        · rcases hbc with h2 | ⟨h2, t2⟩
          · exact Or.inl (h1 ▸ h2)
          · exact Or.inr ⟨h1.trans h2, ih ys zs t1 t2⟩

/-- Antisymmetry of the code-point order. -/
theorem charListLe_antisymm : ∀ a b : List Char,
    charListLe a b = true → charListLe b a = true → a = b := by
  intro a
  induction a with
  | nil =>
    intro b _ hba
    cases b with
    | nil => rfl
    | cons y ys => simp [charListLe] at hba
  | cons x xs ih =>
    intro b hab hba
    cases b with
    | nil => simp [charListLe] at hab
    | cons y ys =>
      rw [charListLe_cons_iff] at hab hba
      rcases hab with h1 | ⟨h1, t1⟩
      · rcases hba with h2 | ⟨h2, t2⟩
        · exact absurd (h1.trans h2) (lt_irrefl x)
        · exact absurd h1 (h2 ▸ lt_irrefl y)
      · rcases hba with h2 | ⟨h2, t2⟩
        · exact absurd h2 (h1 ▸ lt_irrefl x)
        · rw [h1, ih ys t1 t2]

/-- Sorting a key list is invariant under permutation of the input: `sorted`
of two dictionaries that are equal as maps yields the same key sequence. -/
theorem sortKeys_eq_of_perm {l1 l2 : List String} (h : l1.Perm l2) :
    sortKeys l1 = sortKeys l2 := by
  haveI htot : IsTotal String (fun a b : String => charListLe a.toList b.toList = true) :=
    ⟨fun a b => charListLe_total a.toList b.toList⟩
  haveI htrans : IsTrans String (fun a b : String => charListLe a.toList b.toList = true) :=
    ⟨fun a b c hab hbc => charListLe_trans a.toList b.toList c.toList hab hbc⟩
  haveI hanti : IsAntisymm String (fun a b : String => charListLe a.toList b.toList = true) :=
    ⟨fun a b hab hba =>
      String.toList_inj.mp (charListLe_antisymm a.toList b.toList hab hba)⟩
  exact List.eq_of_perm_of_sorted
    ((List.perm_insertionSort _ l1).trans (h.trans (List.perm_insertionSort _ l2).symm))
    (List.sorted_insertionSort _ l1)
    (List.sorted_insertionSort _ l2)

/-- Congruence for `flatMap` under pointwise equality on the list. -/
theorem flatMap_congr {l : List α} {f g : α → List β} (h : ∀ a ∈ l, f a = g a) :
    l.flatMap f = l.flatMap g := by
  induction l with
  | nil => rfl
  | cons a as ih =>
    simp only [List.flatMap_cons]
    rw [h a (by simp), ih (fun x hx => h x (by simp [hx]))]

/-- The accumulation shape of the `get_results` stratum loops: rows are
appended across the iterations while the stats slot is overwritten, so the
fold ends with the concatenation of all per-stratum rows and the stats of the
last stratum. -/
theorem foldl_rows_last {σ τ υ : Type} (f : σ → List τ) (g : σ → υ) (l : List σ)
    (rows0 : List τ) (s0 : Option υ) :
    l.foldl (fun acc x => (acc.1 ++ f x, some (g x))) (rows0, s0)
      = (rows0 ++ l.flatMap f, (l.getLast?).elim s0 (fun x => some (g x))) := by
  induction l generalizing rows0 s0 with
  | nil => simp
  | cons x xs ih =>
    simp only [List.foldl_cons, ih, List.flatMap_cons, List.append_assoc]
    congr 1
    cases xs <;> simp [List.getLast?]

/-- Splitting on a character that does not occur returns the whole list. -/
theorem splitOnChar_not_mem {c : Char} {s : List Char} (h : c ∉ s) :
    splitOnChar c s = [s] := by
  induction s with
  | nil => rfl
  | cons x rest ih =>
    simp only [List.mem_cons, not_or] at h
    have hx : ¬ x = c := fun hh => h.1 hh.symm
    simp [splitOnChar, ih h.2, hx]

/-- `pathlib` name extraction is the identity on slash-free strings. -/
theorem pathName_id {s : String} (h : '/' ∉ s.toList) : pathName s = s := by
  have h' : splitOnChar '/' s.toList = [s.toList] := splitOnChar_not_mem h
  simp only [pathName, h', List.getLastD_cons, List.getLastD_nil]
  exact String.asString_toList s

/-- Replacing `".tsv"` in `stem ++ ".tsv"` rewrites exactly the final
occurrence when the stem contains no dot. -/
theorem replaceAll_stem_tsv (rep : List Char) (stem : List Char) (h : '.' ∉ stem) :
    replaceAll ".tsv".toList rep (stem ++ ".tsv".toList) = stem ++ rep := by
  have hpat : ".tsv".toList = ['.', 't', 's', 'v'] := rfl
  induction stem with
  | nil =>
    rw [List.nil_append, hpat, replaceAll]
    have hc : (['.', 't', 's', 'v'] : List Char) ≠ []
        ∧ List.isPrefixOf ['.', 't', 's', 'v'] ['.', 't', 's', 'v'] = true := by decide
    rw [if_pos hc]
    simp [replaceAll]
  | cons c cs ih =>
    simp only [List.mem_cons, not_or] at h
    rw [List.cons_append, hpat, replaceAll]
    have hc : ¬ ((['.', 't', 's', 'v'] : List Char) ≠ []
        ∧ List.isPrefixOf ['.', 't', 's', 'v'] (c :: (cs ++ ['.', 't', 's', 'v'])) = true) := by
      rintro ⟨-, hpre⟩
      simp only [List.isPrefixOf, Bool.and_eq_true, beq_iff_eq] at hpre
      exact h.1 hpre.1
    rw [if_neg hc]
    rw [← hpat, ih h.2, List.cons_append]

/-- `pyReplace` on a dot-free stem followed by `.tsv`: only the extension is
rewritten. -/
theorem pyReplace_stem_tsv (stem rep : String) (h : '.' ∉ stem.toList) :
    pyReplace (stem ++ ".tsv") ".tsv" rep = stem ++ rep := by
  have hdata : (stem ++ ".tsv").toList = stem.toList ++ ".tsv".toList := by
    simp [String.toList, String.data_append]
  have hres : (stem ++ rep).toList = stem.toList ++ rep.toList := by
    simp [String.toList, String.data_append]
  rw [pyReplace, hdata, replaceAll_stem_tsv rep.toList stem.toList h, ← hres,
    String.asString_toList]

/-- C1: for every column handed to the evaluation wrapper, the returned
per-tag map binds the key `"ALL"` to exactly the column-global bundle that the
collaborator's `evaluate` call returned for that column.  The collaborator is
universally quantified, so the `"ALL"` entry cannot be re-derived from the
per-tag counts (summing tags would be a different function of the bundle). -/
theorem c1_all_key_is_collaborator_global {α : Type} [DecidableEq α]
    (evaluate : α → TagBundle × TagDict) (cols : List α) (col : α)
    (h : col ∈ cols) :
    ∃ d, dlookup col (evaluation_wrapper evaluate cols) = some d
      ∧ dlookup "ALL" d = some (evaluate col).1 := by
  refine ⟨dictInsert (evaluate col).2 "ALL" (evaluate col).1, ?_, ?_⟩
  · have key :
        dlookup col (evaluation_wrapper evaluate cols)
          = if col ∈ cols then
              some (dictInsert (evaluate col).2 "ALL" (evaluate col).1)
            else none :=
      dlookup_foldl_dictInsert
        (fun c => dictInsert (evaluate c).2 "ALL" (evaluate c).1) cols [] col
    rw [key, if_pos h]
  · rw [dlookup_dictInsert]
    simp

/-- Witness for C1 at a concrete column list and collaborator. -/
theorem c1_witness :
    ∃ d, dlookup "NE-COARSE-LIT"
          (evaluation_wrapper
            (fun c => sampleCollab c "nerc" 1 none none none) COARSE_COLUMNS)
        = some d
      ∧ dlookup "ALL" d
          = some (sampleCollab "NE-COARSE-LIT" "nerc" 1 none none none).1 :=
  c1_all_key_is_collaborator_global
    (fun c => sampleCollab c "nerc" 1 none none none) COARSE_COLUMNS
    "NE-COARSE-LIT" (by decide)

/-- C2: every completing run writes exactly two files, once, after all strata:
the tabular file carries the concatenation of the per-stratum row blocks over
the whole stratum product, while the structured file carries only the
`eval_stats` bundle of the last stratum in the product (the loop rebinds
`eval_stats` each iteration and `json.dump` sees its final value). -/
theorem c2_tsv_accumulates_json_keeps_last (evalF : Collaborator String)
    (f_pred task : String) (skip_check : Bool) (n_best : List Nat) (union : Bool)
    (outdir suffix : String) (tagset : Option (List String))
    (noise_levels : List NoiseLevel) (time_periods : List TimePeriod)
    (submission lang : String)
    (hsub : (if skip_check then Except.ok (f_pred, "LANG")
              else enforce_filename f_pred) = Except.ok (submission, lang)) :
    ((task = "nerc_fine" ∨ task = "nerc_coarse") →
      ∀ nt, (pyProduct noise_levels time_periods).getLast? = some nt →
        get_results evalF f_pred task skip_check n_best union outdir suffix tagset
            noise_levels time_periods
          = Except.ok
              [⟨pathJoin outdir (pyReplace (pathName f_pred) ".tsv"
                  ("_" ++ task ++ (if suffix ≠ "" then "_" ++ suffix else suffix)
                    ++ ".tsv")),
                FileContent.tsv fieldnames
                  ((pyProduct noise_levels time_periods).flatMap
                    (nercRows evalF tagset
                      (if task = "nerc_fine" then FINE_COLUMNS else COARSE_COLUMNS)
                      submission suffix))⟩,
               ⟨pathJoin outdir (pyReplace (pathName f_pred) ".tsv"
                  ("_" ++ task ++ (if suffix ≠ "" then "_" ++ suffix else suffix)
                    ++ ".json")),
                FileContent.json
                  (nercStats evalF tagset
                    (if task = "nerc_fine" then FINE_COLUMNS else COARSE_COLUMNS)
                    nt)⟩])
    ∧ (task = "nel" → union = false →
      ∀ nnt, (pyProduct n_best (pyProduct noise_levels time_periods)).getLast?
          = some nnt →
        get_results evalF f_pred task skip_check n_best union outdir suffix tagset
            noise_levels time_periods
          = Except.ok
              [⟨pathJoin outdir (pyReplace (pathName f_pred) ".tsv"
                  ("_" ++ task ++ (if suffix ≠ "" then "_" ++ suffix else suffix)
                    ++ ".tsv")),
                FileContent.tsv fieldnames
                  ((pyProduct n_best (pyProduct noise_levels time_periods)).flatMap
                    (nelRows evalF submission suffix))⟩,
               ⟨pathJoin outdir (pyReplace (pathName f_pred) ".tsv"
                  ("_" ++ task ++ (if suffix ≠ "" then "_" ++ suffix else suffix)
                    ++ ".json")),
                FileContent.json (nelStats evalF nnt)⟩]) := by
  constructor
  · intro htask nt hlast
    unfold get_results
    rw [hsub]
    simp only [if_pos htask]
    rw [foldl_rows_last (nercRows evalF tagset
        (if task = "nerc_fine" then FINE_COLUMNS else COARSE_COLUMNS)
        submission suffix)
      (nercStats evalF tagset
        (if task = "nerc_fine" then FINE_COLUMNS else COARSE_COLUMNS))]
    rw [hlast]
    simp [Option.elim]
  · intro htask hunion nnt hlast
    unfold get_results
    rw [hsub]
    have hne : ¬ (task = "nerc_fine" ∨ task = "nerc_coarse") := by
      rintro (h | h) <;> simp [htask] at h
    simp only [if_neg hne, if_pos htask, hunion, Bool.false_eq_true, if_neg,
      ite_false]
    rw [foldl_rows_last (nelRows evalF submission suffix) (nelStats evalF)]
    rw [hlast]
    simp [Option.elim]

/-- Witness for C2 on a concrete single-stratum NERC run. -/
theorem c2_witness :
    get_results sampleCollab "x.tsv" "nerc_coarse" true [1] false "." "" none
        [none] [none]
      = Except.ok
          [⟨pathJoin "." (pyReplace (pathName "x.tsv") ".tsv"
              ("_" ++ "nerc_coarse"
                ++ (if ("" : String) ≠ "" then "_" ++ "" else "") ++ ".tsv")),
            FileContent.tsv fieldnames
              ((pyProduct [none] [none]).flatMap
                (nercRows sampleCollab none
                  (if "nerc_coarse" = "nerc_fine" then FINE_COLUMNS else COARSE_COLUMNS)
                  "x.tsv" ""))⟩,
           ⟨pathJoin "." (pyReplace (pathName "x.tsv") ".tsv"
              ("_" ++ "nerc_coarse"
                ++ (if ("" : String) ≠ "" then "_" ++ "" else "") ++ ".json")),
            FileContent.json
              (nercStats sampleCollab none
                (if "nerc_coarse" = "nerc_fine" then FINE_COLUMNS else COARSE_COLUMNS)
                (none, none))⟩] :=
  (c2_tsv_accumulates_json_keeps_last sampleCollab "x.tsv" "nerc_coarse" true [1]
      false "." "" none [none] [none] "x.tsv" "LANG" rfl).1
    (Or.inr rfl) (none, none) rfl

/-- C3 counterexample: at the concrete stratum "noise band 0.0-0.1, no time
filter" (cutoff 1 for NEL) the label built by the code is
`TIME-ALL-LED-0.0-0.1(-@1)` — the time-period component comes first — and is
not the noise-first label `LED-0.0-0.1-TIME-ALL(-@1)` prescribed by the
claim. -/
theorem c3_counterexample :
    nercEvalSuffix "" none (some ("0.0", "0.1")) = "TIME-ALL-LED-0.0-0.1"
    ∧ nelEvalSuffix "" none (some ("0.0", "0.1")) 1 false = "TIME-ALL-LED-0.0-0.1-@1"
    ∧ "TIME-ALL-LED-0.0-0.1" ≠ "LED-0.0-0.1-TIME-ALL"
    ∧ "TIME-ALL-LED-0.0-0.1-@1" ≠ "LED-0.0-0.1-TIME-ALL-@1"
    ∧ List.isPrefixOf "LED".toList "TIME-ALL-LED-0.0-0.1".toList = false := by
  refine ⟨by decide, by decide, by decide, by decide, by decide⟩

/-- C3 amended: the composite stratum label lists the axis components in the
fixed order *time period first, then noise band*, then the cutoff marker; the
cutoff is rendered as the suffix `-@<n>`, and union mode prefixes the whole
label (user suffix included) with `union_lit_meto-`.  The time component
always starts with `TIME-` and the noise component with `LED-`. -/
theorem c3_amended_time_then_noise_then_cutoff (suffix : String)
    (tp : TimePeriod) (nl : NoiseLevel) (n : Nat) :
    (∃ r, define_time_label tp = "TIME-" ++ r)
    ∧ (∃ r, define_noise_label nl = "LED-" ++ r)
    ∧ nercEvalSuffix suffix tp nl
        = userDash suffix ++ define_time_label tp ++ "-" ++ define_noise_label nl
    ∧ nelEvalSuffix suffix tp nl n false
        = userDash suffix ++ define_time_label tp ++ "-" ++ define_noise_label nl
          ++ "-@" ++ Nat.repr n
    ∧ nelEvalSuffix suffix tp nl n true
        = "union_lit_meto-"
          ++ (userDash suffix ++ define_time_label tp ++ "-"
              ++ define_noise_label nl ++ "-@" ++ Nat.repr n) := by
  refine ⟨?_, ?_, rfl, rfl, rfl⟩
  · cases tp with
    | none => exact ⟨"ALL", rfl⟩
    | some p =>
      exact ⟨fmtYear p.1 ++ "-" ++ fmtYear p.2, by
        simp [define_time_label, String.append_assoc]⟩
  · cases nl with
    | none => exact ⟨"ALL", rfl⟩
    | some p =>
      exact ⟨p.1 ++ "-" ++ p.2, by
        simp [define_noise_label, String.append_assoc]⟩

/-- Any completing `get_results` run writes exactly the TSV and JSON paths
obtained by substituting `_<task>[_<suffix>]` plus the extension for `.tsv`
in the prediction file's name. -/
theorem get_results_paths (evalF : Collaborator String) (f_pred task : String)
    (skip_check : Bool) (n_best : List Nat) (union : Bool)
    (outdir suffix : String) (tagset : Option (List String))
    (noise_levels : List NoiseLevel) (time_periods : List TimePeriod)
    (files : List FileOut)
    (hok : get_results evalF f_pred task skip_check n_best union outdir suffix
            tagset noise_levels time_periods = Except.ok files) :
    files.map FileOut.path
      = [pathJoin outdir (pyReplace (pathName f_pred) ".tsv"
          ("_" ++ task ++ (if suffix ≠ "" then "_" ++ suffix else suffix) ++ ".tsv")),
         pathJoin outdir (pyReplace (pathName f_pred) ".tsv"
          ("_" ++ task ++ (if suffix ≠ "" then "_" ++ suffix else suffix) ++ ".json"))] := by
  unfold get_results at hok
  simp only [] at hok
  repeat' split at hok
  all_goals try exact Except.noConfusion hok
  all_goals rw [← (Except.ok.injEq _ _).mp hok]
  all_goals rename_i hsuf
  all_goals simp [hsuf]

unseal replaceAll in
/-- C4 counterexample: the scenario run evaluates three noise strata (labels
`LED-ALL`, `LED-0.0-0.1`, `LED-0.1-1.0`), yet neither output filename contains
any stratum label — the filename suffix is built from the task and the user
suffix only, so a name "composed from the stratum labels of the evaluated
strata" is refuted at this input. -/
theorem c4_counterexample :
    mainNoiseLevels c8Args.noise_level
      = some [none, some ("0.0", "0.1"), some ("0.1", "1.0")]
    ∧ c8Run.2.map FileOut.path
      = ["team_bundle1_de_1_nerc_coarse.tsv", "team_bundle1_de_1_nerc_coarse.json"]
    ∧ hasSub "LED".toList "team_bundle1_de_1_nerc_coarse.tsv".toList = false
    ∧ hasSub "TIME".toList "team_bundle1_de_1_nerc_coarse.tsv".toList = false
    ∧ hasSub "LED".toList "team_bundle1_de_1_nerc_coarse.json".toList = false
    ∧ hasSub "TIME".toList "team_bundle1_de_1_nerc_coarse.json".toList = false := by
  refine ⟨by decide, by decide, by decide, by decide, by decide, by decide⟩

/-- C4 amended: for every completing run the two output filenames are
`<original-prediction-stem>_<task>[_<user-suffix>].tsv` / `.json`, where only
the user-supplied free-text suffix participates in the filename (prefixed with
an underscore when non-empty); the stratum labels appear in the rows'
`Evaluation` fields, never in the filenames. -/
theorem c4_amended_filenames (evalF : Collaborator String) (stem task : String)
    (skip_check : Bool) (n_best : List Nat) (union : Bool)
    (outdir suffix : String) (tagset : Option (List String))
    (noise_levels : List NoiseLevel) (time_periods : List TimePeriod)
    (files : List FileOut)
    (hdot : '.' ∉ stem.toList) (hslash : '/' ∉ stem.toList)
    (hok : get_results evalF (stem ++ ".tsv") task skip_check n_best union outdir
            suffix tagset noise_levels time_periods = Except.ok files) :
    files.map FileOut.path
      = [pathJoin outdir (stem ++ ("_" ++ task
           ++ (if suffix ≠ "" then "_" ++ suffix else suffix) ++ ".tsv")),
         pathJoin outdir (stem ++ ("_" ++ task
           ++ (if suffix ≠ "" then "_" ++ suffix else suffix) ++ ".json"))] := by
  have hname : pathName (stem ++ ".tsv") = stem ++ ".tsv" := by
    apply pathName_id
    have hd : (stem ++ ".tsv").toList = stem.toList ++ ".tsv".toList := by
      simp [String.toList, String.data_append]
    rw [hd]
    simp only [List.mem_append]
    rintro (h | h)
    · exact hslash h
    · exact absurd h (by decide)
  have h1 := get_results_paths evalF (stem ++ ".tsv") task skip_check n_best
    union outdir suffix tagset noise_levels time_periods files hok
  rw [hname, pyReplace_stem_tsv stem _ hdot, pyReplace_stem_tsv stem _ hdot] at h1
  exact h1

/-- Witness for the amended C4 on a concrete completing run. -/
theorem c4_amended_witness :
    sampleFiles.map FileOut.path
      = [pathJoin "." ("team_bundle1_de_1" ++ ("_" ++ "nerc_coarse"
          ++ (if ("" : String) ≠ "" then "_" ++ "" else "") ++ ".tsv")),
         pathJoin "." ("team_bundle1_de_1" ++ ("_" ++ "nerc_coarse"
          ++ (if ("" : String) ≠ "" then "_" ++ "" else "") ++ ".json"))] :=
  c4_amended_filenames sampleCollab "team_bundle1_de_1" "nerc_coarse" true [1]
    false "." "" none [none] [none] sampleFiles (by decide) (by decide) rfl

/-- C5: the `Evaluation` label of a row is built from the display regime name
(`fuzzy` appears as `fuzzy`), while the result bundle is indexed under
`regimeKey` of it — `"fuzzy"` maps to the storage key `"ent_type"`, `"strict"`
keeps its own name. -/
theorem c5_fuzzy_display_ent_type_storage
    (submission col aggr suffix tag : String) (b : TagBundle) :
    regimeKey "fuzzy" = "ent_type"
    ∧ regimeKey "strict" = "strict"
    ∧ dlookup "Evaluation" (buildRow submission col aggr "fuzzy" suffix b tag)
        = some (Cell.str (col ++ "-" ++ aggr ++ "-" ++ "fuzzy" ++ suffix))
    ∧ dlookup "P" (buildRow submission col aggr "fuzzy" suffix b tag)
        = some (roundCell (Cell.val (b "ent_type" ("P" ++ "_" ++ aggr))))
    ∧ dlookup "Evaluation" (buildRow submission col aggr "strict" suffix b tag)
        = some (Cell.str (col ++ "-" ++ aggr ++ "-" ++ "strict" ++ suffix))
    ∧ dlookup "P" (buildRow submission col aggr "strict" suffix b tag)
        = some (roundCell (Cell.val (b "strict" ("P" ++ "_" ++ aggr)))) := by
  refine ⟨rfl, rfl, ?_, ?_, ?_, ?_⟩ <;>
    simp [buildRow, rawRow, regimeKey, metrics, dlookup, roundCell]

/-- C6: every row carries `P`, `R`, `F1`; the raw counts `TP`/`FP`/`FN` are
present exactly when the aggregation is `"micro"`; the standard deviations
`P_std`/`R_std`/`F1_std` are present exactly when the aggregation name
contains `"macro"`. -/
theorem c6_fields_by_aggregation
    (submission col aggr regime suffix tag : String) (b : TagBundle) :
    ("P" ∈ (buildRow submission col aggr regime suffix b tag).map Prod.fst
      ∧ "R" ∈ (buildRow submission col aggr regime suffix b tag).map Prod.fst
      ∧ "F1" ∈ (buildRow submission col aggr regime suffix b tag).map Prod.fst)
    ∧ (("TP" ∈ (buildRow submission col aggr regime suffix b tag).map Prod.fst
        ∧ "FP" ∈ (buildRow submission col aggr regime suffix b tag).map Prod.fst
        ∧ "FN" ∈ (buildRow submission col aggr regime suffix b tag).map Prod.fst)
        ↔ aggr = "micro")
    ∧ (("P_std" ∈ (buildRow submission col aggr regime suffix b tag).map Prod.fst
        ∧ "R_std" ∈ (buildRow submission col aggr regime suffix b tag).map Prod.fst
        ∧ "F1_std" ∈ (buildRow submission col aggr regime suffix b tag).map Prod.fst)
        ↔ hasSubStr "macro" aggr = true) := by
  have hkeys : (buildRow submission col aggr regime suffix b tag).map Prod.fst
      = ["System", "Evaluation", "Label", "P", "R", "F1"]
        ++ (if aggr = "micro" then ["TP", "FP", "FN"] else [])
        ++ (if hasSubStr "macro" aggr then ["P_std", "R_std", "F1_std"] else []) := by
    by_cases h1 : aggr = "micro" <;>
      by_cases h2 : hasSubStr "macro" aggr <;>
        simp [buildRow, rawRow, metrics, figures, h1, h2,
          show hasSubStr "macro" "micro" = false from by decide]
  rw [hkeys]
  by_cases h1 : aggr = "micro" <;>
    by_cases h2 : hasSubStr "macro" aggr <;>
      simp [h1, h2]

/-- C7: the emitted row is exactly the raw row with every value passed through
the rounding step; numbers are rounded to 3 decimals (the result is an integer
multiple of 1/1000 within 1/2000 of the input), the explicit empty marker and
the string fields pass through unchanged, and the row keeps all its fields
(same keys, same length — a missing metric never aborts the row). -/
theorem c7_round_numeric_pass_empty
    (submission col aggr regime suffix tag : String) (b : TagBundle)
    (q : Rat) (s : String) :
    buildRow submission col aggr regime suffix b tag
      = (rawRow submission col aggr regime suffix b tag).map
          (fun p => (p.1, roundCell p.2))
    ∧ roundCell (Cell.val (PyVal.num q)) = Cell.val (PyVal.num (round3 q))
    ∧ roundCell (Cell.val PyVal.empty) = Cell.val PyVal.empty
    ∧ roundCell (Cell.str s) = Cell.str s
    ∧ (buildRow submission col aggr regime suffix b tag).map Prod.fst
        = (rawRow submission col aggr regime suffix b tag).map Prod.fst
    ∧ (buildRow submission col aggr regime suffix b tag).length
        = (rawRow submission col aggr regime suffix b tag).length
    ∧ (∃ z : Int, round3 q = (z : Rat) / 1000)
    ∧ |round3 q - q| ≤ 1 / 2000 := by
  refine ⟨rfl, rfl, rfl, rfl, ?_, ?_, ⟨round (q * 1000), rfl⟩, ?_⟩
  · simp [buildRow, List.map_map]
  · simp [buildRow]
  · have hd : round3 q - q = ((round (q * 1000) : Rat) - q * 1000) / 1000 := by
      unfold round3
      ring
    have hr : |q * 1000 - round (q * 1000)| ≤ 1 / 2 := abs_sub_round (q * 1000)
    rw [hd, abs_div, abs_of_pos (by norm_num : (0 : Rat) < 1000), abs_sub_comm]
    rw [div_le_div_iff₀ (by norm_num) (by norm_num : (0 : Rat) < 2000)]
    nlinarith [hr]

set_option maxRecDepth 4000 in
unseal replaceAll in
/-- C8: with noise spec `0.0-0.1,0.1-1.0`, task `nerc_coarse` and no time
spec, the pipeline enumerates exactly 3 noise strata (the synthetic all-noise
stratum first, labels `LED-ALL`, `LED-0.0-0.1`, `LED-0.1-1.0`) and 1 time
stratum, and the accumulated table of the scenario run (two tags per column
bundle) holds exactly 3 × 1 × 2 columns × 2 aggregations × 2 regimes = 24
distinct `Evaluation` labels, each with one row per tag plus one `ALL` row. -/
theorem c8_noise_scenario_label_groups :
    mainNoiseLevels (some "0.0-0.1,0.1-1.0")
      = some [none, some ("0.0", "0.1"), some ("0.1", "1.0")]
    ∧ mainTimePeriods none = some [none]
    ∧ c8Run.1 = 0
    ∧ c8Rows.length = 72
    ∧ c8Labels.dedup =
        [Cell.str "NE-COARSE-LIT-micro-fuzzy-TIME-ALL-LED-ALL",
         Cell.str "NE-COARSE-LIT-micro-strict-TIME-ALL-LED-ALL",
         Cell.str "NE-COARSE-LIT-macro_doc-fuzzy-TIME-ALL-LED-ALL",
         Cell.str "NE-COARSE-LIT-macro_doc-strict-TIME-ALL-LED-ALL",
         Cell.str "NE-COARSE-METO-micro-fuzzy-TIME-ALL-LED-ALL",
         Cell.str "NE-COARSE-METO-micro-strict-TIME-ALL-LED-ALL",
         Cell.str "NE-COARSE-METO-macro_doc-fuzzy-TIME-ALL-LED-ALL",
         Cell.str "NE-COARSE-METO-macro_doc-strict-TIME-ALL-LED-ALL",
         Cell.str "NE-COARSE-LIT-micro-fuzzy-TIME-ALL-LED-0.0-0.1",
         Cell.str "NE-COARSE-LIT-micro-strict-TIME-ALL-LED-0.0-0.1",
         Cell.str "NE-COARSE-LIT-macro_doc-fuzzy-TIME-ALL-LED-0.0-0.1",
         Cell.str "NE-COARSE-LIT-macro_doc-strict-TIME-ALL-LED-0.0-0.1",
         Cell.str "NE-COARSE-METO-micro-fuzzy-TIME-ALL-LED-0.0-0.1",
         Cell.str "NE-COARSE-METO-micro-strict-TIME-ALL-LED-0.0-0.1",
         Cell.str "NE-COARSE-METO-macro_doc-fuzzy-TIME-ALL-LED-0.0-0.1",
         Cell.str "NE-COARSE-METO-macro_doc-strict-TIME-ALL-LED-0.0-0.1",
         Cell.str "NE-COARSE-LIT-micro-fuzzy-TIME-ALL-LED-0.1-1.0",
         Cell.str "NE-COARSE-LIT-micro-strict-TIME-ALL-LED-0.1-1.0",
         Cell.str "NE-COARSE-LIT-macro_doc-fuzzy-TIME-ALL-LED-0.1-1.0",
         Cell.str "NE-COARSE-LIT-macro_doc-strict-TIME-ALL-LED-0.1-1.0",
         Cell.str "NE-COARSE-METO-micro-fuzzy-TIME-ALL-LED-0.1-1.0",
         Cell.str "NE-COARSE-METO-micro-strict-TIME-ALL-LED-0.1-1.0",
         Cell.str "NE-COARSE-METO-macro_doc-fuzzy-TIME-ALL-LED-0.1-1.0",
         Cell.str "NE-COARSE-METO-macro_doc-strict-TIME-ALL-LED-0.1-1.0"]
    ∧ c8Labels.dedup.length = 24
    ∧ c8Labels.dedup.all (fun l => c8Labels.count l == 3) = true
    ∧ (c8Rows.filterMap (dlookup "Label")).count (Cell.str "ALL") = 24
    ∧ (c8Rows.filterMap (dlookup "Label")).count (Cell.str "loc") = 24
    ∧ (c8Rows.filterMap (dlookup "Label")).count (Cell.str "pers") = 24 := by
  refine ⟨by decide, by decide, by decide, by decide, by decide, by decide,
    by decide, by decide, by decide, by decide⟩

/-- C9: report assembly only consumes the result-bundle maps through their
sorted key lists and their lookups, so two maps that are equal as maps (same
column keys up to permutation, same per-column tag keys up to permutation,
same lookups) assemble to identical outputs: columns are iterated in sorted
order and tags in sorted order within each (column, aggregation, regime)
group. -/
theorem c9_assemble_insertion_order_independent (submission : String)
    (regimes : List String) (only_aggregated : Bool) (suffix : String)
    (d1 d2 : StatsDict)
    (hcols : (dictKeys d1).Perm (dictKeys d2))
    (htags : ∀ col, (dictKeys ((dlookup col d1).getD [])).Perm
        (dictKeys ((dlookup col d2).getD [])))
    (hdata : ∀ col tag, dlookup tag ((dlookup col d1).getD [])
        = dlookup tag ((dlookup col d2).getD [])) :
    assemble_tsv_output submission d1 regimes only_aggregated suffix
      = assemble_tsv_output submission d2 regimes only_aggregated suffix := by
  unfold assemble_tsv_output
  refine congrArg (Prod.mk fieldnames) ?_
  rw [sortKeys_eq_of_perm hcols]
  apply flatMap_congr
  intro col _
  have htag : sortKeys (dictKeys ((dlookup col d1).getD []))
      = sortKeys (dictKeys ((dlookup col d2).getD [])) :=
    sortKeys_eq_of_perm (htags col)
  have hb : ∀ tag, tagBundle d1 col tag = tagBundle d2 col tag := by
    intro tag
    unfold tagBundle
    rw [hdata]
  simp only [htag, hb]

/-- Witness for C9: two concrete maps equal as maps but built in opposite
insertion orders assemble identically. -/
theorem c9_witness :
    assemble_tsv_output "sys" permDict1 ["fuzzy", "strict"] false "S"
      = assemble_tsv_output "sys" permDict2 ["fuzzy", "strict"] false "S" := by
  apply c9_assemble_insertion_order_independent
  · decide
  · intro col
    by_cases h1 : ("NE-COARSE-METO" : String) = col
    · rw [← h1]
      have e1 : (dlookup "NE-COARSE-METO" permDict1).getD []
          = [("pers", sampleBundle), ("loc", otherBundle)] := rfl
      have e2 : (dlookup "NE-COARSE-METO" permDict2).getD []
          = [("loc", otherBundle), ("pers", sampleBundle)] := rfl
      rw [e1, e2]
      decide
    · by_cases h2 : ("NE-COARSE-LIT" : String) = col
      · rw [← h2]
        decide
      · simp [permDict1, permDict2, dlookup, dictKeys, h1, h2]
  · intro col tag
    by_cases h1 : ("NE-COARSE-METO" : String) = col
    · rw [← h1]
      have e1 : (dlookup "NE-COARSE-METO" permDict1).getD []
          = [("pers", sampleBundle), ("loc", otherBundle)] := rfl
      have e2 : (dlookup "NE-COARSE-METO" permDict2).getD []
          = [("loc", otherBundle), ("pers", sampleBundle)] := rfl
      rw [e1, e2]
      by_cases hp : ("pers" : String) = tag
      · by_cases hl : ("loc" : String) = tag
        · exact absurd (hp.trans hl.symm) (by decide)
        · simp [dlookup, hp, hl]
      · by_cases hl : ("loc" : String) = tag
        · simp [dlookup, hp, hl]
        · simp [dlookup, hp, hl]
    · by_cases h2 : ("NE-COARSE-LIT" : String) = col
      · rw [← h2]
        have e1 : (dlookup "NE-COARSE-LIT" permDict1).getD [] = ([] : TagDict) := rfl
        have e2 : (dlookup "NE-COARSE-LIT" permDict2).getD [] = ([] : TagDict) := rfl
        rw [e1, e2]
      · simp [permDict1, permDict2, dlookup, h1, h2]

unseal replaceAll in
/-- C10 counterexample: `team_dnu3_de_1.tsv` is *not* of the documented form
`TEAM_bundleN_LANG_RUN` — its second stem component `dnu3` does not even start
with `bundle` — yet `enforce_filename` accepts it (because `lstrip("bundle")`
strips the character set `{b,u,n,d,l,e}`, leaving `3`), the run proceeds to a
full evaluation, terminates with status 0 and writes both output files, where
the claim required an `AssertionError` before any evaluation and no output. -/
theorem c10_counterexample :
    enforce_filename "team_dnu3_de_1.tsv" = Except.ok ("team_dnu3_de_1", "de")
    ∧ (pySplit '_' "team_dnu3_de_1").getD 1 "" = "dnu3"
    ∧ List.isPrefixOf "bundle".toList "dnu3".toList = false
    ∧ pyLstrip "bundle".toList "dnu3".toList = ['3']
    ∧ dnuRun.1 = 0
    ∧ dnuRun.2.map FileOut.path
        = ["team_dnu3_de_1_nerc_coarse.tsv", "team_dnu3_de_1_nerc_coarse.json"] := by
  refine ⟨by rfl, by decide, by decide, by decide, by decide, by decide⟩

/-- C10 amended: when the flag combination is valid, the axis arguments
parse, `skip_check` is off and the prediction filename fails the *implemented*
check (stem must split on `_` into exactly four parts, with the second
parsing as an integer in 1..5 after stripping the characters of `"bundle"`
from its left, the language in {de, fr, en} and the extension `.tsv`,
case-insensitively), then `get_results` raises `AssertionError` before any
evaluation, `main` catches it and only prints, so the process exits 0 with no
output file created — whereas an invalid flag combination exits with status 1
(also writing nothing). -/
theorem c10_amended_assertion_exit0_config_exit1 (evalF : Collaborator String)
    (args args' : Args) (m : String)
    (nb : List Nat) (nls : List NoiseLevel) (tps : List TimePeriod)
    (hvalid : check_validity_of_arguments args = true)
    (hn : parseNBest args.n_best = some nb)
    (hnl : mainNoiseLevels args.noise_level = some nls)
    (htp : mainTimePeriods args.time_period = some tps)
    (hskip : args.skip_check = false)
    (hname : enforce_filename args.f_pred = Except.error (PyError.assertionError m))
    (hconf : check_validity_of_arguments args' = false) :
    mainModel evalF args = (0, []) ∧ mainModel evalF args' = (1, []) := by
  constructor
  · unfold mainModel
    rw [hvalid, hn, hnl, htp]
    unfold get_results
    rw [hskip]
    simp [hname]
  · unfold mainModel
    rw [hconf]
    rfl

/-- Witness for the amended C10 on concrete argument records. -/
theorem c10_witness :
    mainModel sampleCollab badNameArgs = (0, [])
    ∧ mainModel sampleCollab badConfigArgs = (1, []) :=
  c10_amended_assertion_exit0_config_exit1 sampleCollab badNameArgs badConfigArgs
    (enforceMsg "bad.tsv") [1] [none] [none] rfl rfl rfl rfl rfl (by rfl) rfl
